import Mathlib

/-!
Verification of the spatial_filter plugin's filter codec
(`src/filters.py`, `src/helpers.py`, `src/settings.py`).

Python strings are modelled as `List Char`; the stateful QGIS layer is a
record whose `subsetString` field is threaded explicitly.  The QGIS
geometry/CRS library (QgsGeometry, QgsCoordinateReferenceSystem,
QgsCoordinateTransform) is an external capability per spec section 2 and 6;
it is modelled by the `GeomAdapter` structure whose fields are the four
geometry operations the code consumes.  A CRS is modelled by its numeric
EPSG/postgis code (`Nat`), with 0 standing for an invalid CRS, since the
code only ever builds CRSs from such codes or from `EPSG:<code>` authority
strings and compares them for equality.
-/

/-- Convert a Lean string literal to the `List Char` model of a python str. -/
def pystr (s : String) : List Char := s.data

/-! ## Python string primitives (faithful models of the str methods used) -/

/-- `hay.find(needle)` restricted to success: index of the first occurrence
of `needle` in `hay` (python `str.find` scanning left to right), `none` if
absent.  `findAt needle [] = some 0` when `needle = []`, matching python
`"x".find("") == 0`. -/
def findAt (needle : List Char) : List Char → Option Nat
  | [] => if needle.isPrefixOf ([] : List Char) then some 0 else none
  | c :: t =>
    if needle.isPrefixOf (c :: t) then some 0
    else (findAt needle t).map (fun n => n + 1)

/-- python `hay.find(needle)`: first index, or `-1` when absent. -/
def pyFind (hay needle : List Char) : Int :=
  match findAt needle hay with
  | some n => (n : Int)
  | none => -1

/-- python `needle in hay` (substring containment). -/
def containsSub (hay needle : List Char) : Bool :=
  (findAt needle hay).isSome

/-- python slice `l[a:b]` with full negative-index normalisation
(step 1 only, which is all the code uses). -/
def pySlice (l : List Char) (a b : Int) : List Char :=
  let n : Int := l.length
  let a' : Nat := (max 0 (min n (if a < 0 then n + a else a))).toNat
  let b' : Nat := (max 0 (min n (if b < 0 then n + b else b))).toNat
  (l.take b').drop a'

/-- python `l[a:]`. -/
def pySliceFrom (l : List Char) (a : Int) : List Char :=
  pySlice l a l.length

/-- python `l[:b]`. -/
def pySliceTo (l : List Char) (b : Int) : List Char :=
  pySlice l 0 b

/-- python `s.rstrip(chars)`: remove trailing characters that are members of
the character *set* `chars` (this set semantics, as opposed to removing one
suffix, is exactly what python's `str.rstrip` does). -/
def pyRstrip (s : List Char) (chars : List Char) : List Char :=
  ((s.reverse).dropWhile (fun c => chars.contains c)).reverse

/-- Fuelled worker for python `s.replace(pat, rep)` (all non-overlapping
occurrences, scanning left to right).  Fuel `s.length` suffices because each
step consumes at least one character of `s`. -/
def pyReplaceFuel (pat rep : List Char) : Nat → List Char → List Char
  | 0, s => s
  | fuel + 1, s =>
    match s with
    | [] => []
    | c :: t =>
      if pat ≠ [] ∧ pat.isPrefixOf (c :: t) then
        rep ++ pyReplaceFuel pat rep fuel ((c :: t).drop pat.length)
      else
        c :: pyReplaceFuel pat rep fuel t

/-- python `s.replace(pat, rep)` for a non-empty `pat` (the code only ever
replaces `' AND '`). -/
def pyReplace (s pat rep : List Char) : List Char :=
  pyReplaceFuel pat rep s.length s

/-- python `s.lower()` (ASCII casing is all the code relies on). -/
def pyLower (s : List Char) : List Char :=
  s.map Char.toLower

/-- The decimal digit character for `d < 10`, as python `str` produces it. -/
def digitChar (d : Nat) : Char :=
  Char.ofNat (48 + d)

/-- Fuelled reversed decimal digit list of `n`; fuel `n + 1` always
suffices since `n / 10 < n` for `n ≥ 10`. -/
def natDigitsRevFuel : Nat → Nat → List Char
  | 0, _ => []
  | fuel + 1, n =>
    if n < 10 then [digitChar n]
    else digitChar (n % 10) :: natDigitsRevFuel fuel (n / 10)

/-- python `str(n)` for a natural number. -/
def pyStrNat (n : Nat) : List Char :=
  (natDigitsRevFuel (n + 1) n).reverse

/-- Numeric value of a decimal digit character. -/
def digitVal (c : Char) : Option Nat :=
  if 48 ≤ c.toNat ∧ c.toNat ≤ 57 then some (c.toNat - 48) else none

/-- Left fold accumulating the decimal value of a digit string. -/
def parseDigitsAux : List Char → Nat → Option Nat
  | [], acc => some acc
  | c :: t, acc =>
    match digitVal c with
    | some d => parseDigitsAux t (10 * acc + d)
    | none => none

/-- Strip leading and trailing spaces (python `int()` ignores surrounding
whitespace; a plain space is the only whitespace reachable here). -/
def pyStripSpace (s : List Char) : List Char :=
  ((s.dropWhile (fun c => c = ' ')).reverse.dropWhile (fun c => c = ' ')).reverse

/-- python `int(s)` for an unsigned decimal string: `none` models the
`ValueError` raised on non-numeric input. -/
def pyIntOfStr (s : List Char) : Option Nat :=
  let t := pyStripSpace s
  if t = [] then none else parseDigitsAux t 0

/-- First-occurrence lookup in an association list: python `dict[k]`
restricted to success (`none` models `KeyError`); keys are unique in every
dict the code builds, so first-match agrees with python. -/
def lookupKV {α : Type} (l : List (List Char × α)) (k : List Char) : Option α :=
  match l with
  | [] => none
  | (k0, v0) :: t => if k0 = k then some v0 else lookupKV t k

/-- `settings.setValue(k, v)` on the association-list model of the
QSettings group: overwrite the entry for `k`, or append a new one. -/
def setKV {α : Type} : List (List Char × α) → List Char → α → List (List Char × α)
  | [], k, v => [(k, v)]
  | (k0, v0) :: t, k, v => if k0 = k then (k, v) :: t else (k0, v0) :: setKV t k v

/-! ## External geometry/CRS adapter (spec section 2: a consumed capability) -/

/-- The geometry operations the code consumes from QGIS, at the WKT level.
`bboxWkt` models `QgsGeometry.fromRect(QgsGeometry.fromWkt(w).boundingBox()).asWkt()`
(the `boxGeometry` property), `convertToSingleTypeWkt` models
`fromWkt` + `convertToSingleType` + the later `asWkt`, and `transform`
models a `QgsCoordinateTransform` between two EPSG codes.  `isGeosValid`
models `QgsGeometry.fromWkt(w).isGeosValid()`. -/
structure GeomAdapter where
  isGeosValid : List Char → Bool
  bboxWkt : List Char → List Char
  convertToSingleTypeWkt : List Char → List Char
  transform : Nat → Nat → List Char → List Char

/-! ## settings.py -/

def FILTER_COMMENT_START : List Char := pystr "/* SpatialFilter Plugin Start */"

def FILTER_COMMENT_STOP : List Char := pystr "/* SpatialFilter Plugin Stop */"

def FILTER_COMMENT_START_SENSORTHINGS : List Char :=
  pystr "'SpatialFilter Plugin Start' eq 'SpatialFilter Plugin Start' and "

def FILTER_COMMENT_STOP_SENSORTHINGS : List Char :=
  pystr " and 'SpatialFilter Plugin Stop' eq 'SpatialFilter Plugin Stop'"

def SENSORTHINGS_STORAGE_TYPE : List Char := pystr "OGC SensorThings API"

/-! ## Data model -/

/-- Errors the python code can raise on the paths modelled here. -/
inductive PyErr where
  /-- `Exception("Format string did not match")` from `matchFormatString`. -/
  | formatMismatch
  /-- python `KeyError` (missing dict key / unknown `Predicate[name]`). -/
  | keyError
  /-- python `ValueError` (`int()` on a non-numeric string, `Predicate(n)`
  on an ordinal outside 1..3). -/
  | valueError
  /-- the failed `assert` in `FilterDefinition.fromStorageDict`
  ("Malformed FilterDefinition loaded from settings"). -/
  | assertionError
  deriving DecidableEq, Repr

/-- `filters.FilterDefinition` (dataclass).  `crs` is the numeric
EPSG/postgis code of the `QgsCoordinateReferenceSystem` (0 = invalid);
`predicate` is the int ordinal (`__post_init__` coerces to int). -/
structure FilterDefinition where
  name : List Char
  wkt : List Char
  crs : Nat
  predicate : Nat
  bbox : Bool
  deriving DecidableEq, Repr

/-- The slice of `QgsVectorLayer` state the code reads and writes:
`subsetString()`/`setSubsetString`, `storageType()`, `crs().postgisSrid()`
and the geometry field name (provider/OGR lookup, an external dataset
accessor per spec section 6, modelled as an attribute). -/
structure Layer where
  subsetString : List Char
  storageType : List Char
  crsSrid : Nat
  geomName : List Char
  deriving DecidableEq, Repr

/-- A value storable in the 5-field storage record (python dict values:
four strings and one bool). -/
inductive SVal where
  | s (v : List Char)
  | b (v : Bool)
  deriving DecidableEq, Repr

/-- The python dict serialised by `storageDict` (insertion-ordered
association list, like a python dict). -/
abbrev StorageDict := List (List Char × SVal)

/-- `QgsCoordinateReferenceSystem.authid()` in the numeric-code model:
`EPSG:<code>` for a valid CRS, the empty string for an invalid one. -/
def authid (crs : Nat) : List Char :=
  if crs = 0 then [] else pystr "EPSG:" ++ pyStrNat crs

/-- `QgsCoordinateReferenceSystem(authidString)`: parse an `EPSG:<code>`
authority id; anything unrecognised yields the invalid CRS (code 0) —
the constructor never raises, it produces an invalid CRS. -/
def crsFromAuthid (s : List Char) : Nat :=
  if (pystr "EPSG:").isPrefixOf s then
    match pyIntOfStr (s.drop 5) with
    | some n => n
    | none => 0
  else 0

/-- `QgsCoordinateReferenceSystem(v)` applied to a stored record value. A
bool argument is outside this typed embedding; like any unrecognised input
it yields the invalid CRS. -/
def crsFromSVal : SVal → Nat
  | .s v => crsFromAuthid v
  | .b _ => 0

/-- `int(v)` as applied by `__post_init__` to the stored predicate field:
parses a numeric string (`none` = `ValueError`), maps a bool to 0/1. -/
def pyIntOfSVal : SVal → Option Nat
  | .s v => pyIntOfStr v
  | .b v => some (if v then 1 else 0)

/-- `Predicate(n).name` for the IntEnum `Predicate`; `.error .valueError`
models the `ValueError` raised on an undefined ordinal. -/
def predicateEnumName : Nat → Except PyErr (List Char)
  | 1 => .ok (pystr "INTERSECTS")
  | 2 => .ok (pystr "WITHIN")
  | 3 => .ok (pystr "DISJOINT")
  | _ => .error .valueError

/-- `Predicate[name]` (lookup by member name); `.error .keyError` models
the `KeyError` raised on an unknown name. -/
def predicateFromName (name : List Char) : Except PyErr Nat :=
  if name = pystr "INTERSECTS" then .ok 1
  else if name = pystr "WITHIN" then .ok 2
  else if name = pystr "DISJOINT" then .ok 3
  else .error .keyError

/-! ## helpers.py -/

/-- `helpers.getFilterStartStopString`. -/
def getFilterStartStopString (layer : Layer) : List Char × List Char :=
  if layer.storageType = SENSORTHINGS_STORAGE_TYPE then
    (FILTER_COMMENT_START_SENSORTHINGS, FILTER_COMMENT_STOP_SENSORTHINGS)
  else
    (FILTER_COMMENT_START, FILTER_COMMENT_STOP)

/-- `helpers.getLayerGeomName`: both the SensorThings entity lookup and the
provider/OGR column lookup are external dataset accessors; the resulting
field name is the layer's `geomName` attribute in this model. -/
def getLayerGeomName (layer : Layer) : List Char :=
  layer.geomName

/-- `helpers.removeFilterFromLayer`, returning the updated layer.  Note the
faithful modelling of the two python quirks this development examines:
`find` yields `-1` when the stop marker is missing (so `stop_index`
becomes `len(stop) - 1`), and `rstrip(' and ')` strips a trailing
character *set*. -/
def removeFilterFromLayer (layer : Layer) : Layer :=
  let SS := getFilterStartStopString layer
  let currentFilter := layer.subsetString
  if ¬ containsSub currentFilter SS.1 then layer
  else
    let start_index : Int := pyFind currentFilter SS.1
    let stop_index : Int := pyFind currentFilter SS.2 + SS.2.length
    let newFilter := pySliceTo currentFilter start_index ++ pySliceFrom currentFilter stop_index
    { layer with subsetString := pyRstrip newFilter (pystr " and ") }

/-- `helpers.reproject_geometry` (argument order as in the source:
geometry, source EPSG, target EPSG).  Two `QgsCoordinateReferenceSystem`s
built from the same code compare equal, so the guard is code equality in
the numeric model. -/
def reproject_geometry (adv : GeomAdapter) (geometry : List Char)
    (source_crs_epsg target_crs_epsg : Nat) : List Char :=
  if source_crs_epsg = target_crs_epsg then geometry
  else adv.transform source_crs_epsg target_crs_epsg geometry

/-! ### matchFormatString

`helpers.matchFormatString` builds, from a format string, the regex
`lit0 (.*) lit1 (.*) lit2 ...` (literals `re.escape`d, each placeholder a
named group) and applies `re.match`.  Both call sites pass
`FILTERSTRING_TEMPLATE`, whose `re.split(r'\{(.*?)\}', ...)` decomposition
has an empty leading literal and the five keyword/trailing-literal pairs
listed in `FILTERSTRING_TEMPLATE_tokens` below.  The embedding implements
exactly the backtracking-priority semantics of the resulting regex: each
greedy `(.*)` prefers the longest capture (no newline, as `.` does not
match one) subject to the rest of the pattern matching, and `re.match`
anchors at the start only, so trailing text after the final literal is
allowed. -/

/-- Candidate split points `[n, n-1, ..., 0]`, longest capture first
(greedy preference order). -/
def descRange : Nat → List Nat
  | 0 => [0]
  | n + 1 => (n + 1) :: descRange n

/-- Try each candidate capture length for one `(.*) lit` unit of the
pattern, longest first, backtracking into `k` (the matcher for the rest of
the pattern) and on failure retrying with the next shorter capture. -/
def scanIdx (kw lit : List Char) (s : List Char)
    (k : List Char → Option (List (List Char × List Char))) :
    List Nat → Option (List (List Char × List Char))
  | [] => none
  | i :: more =>
    let g := s.take i
    if lit.isPrefixOf (s.drop i) ∧ ¬ g.contains '\n' then
      match k ((s.drop i).drop lit.length) with
      | some m => some ((kw, g) :: m)
      | none => scanIdx kw lit s k more
    else scanIdx kw lit s k more

/-- Fuelled matcher for an alternating `(.*) lit` pattern list; one unit of
fuel is consumed per pattern element, so `tokens.length + 1` always
suffices. -/
def reMatchFuel : Nat → List (List Char × List Char) → List Char →
    Option (List (List Char × List Char))
  | 0, _, _ => none
  | _ + 1, [], _ => some []
  | fuel + 1, (kw, lit) :: rest, s =>
    scanIdx kw lit s (fun t => reMatchFuel fuel rest t) (descRange s.length)

/-- `re.match` of the compiled pattern `g1 lit1 g2 lit2 ... g5 lit5`
(leading literal empty) against `s`. -/
def reMatchGroups (tokens : List (List Char × List Char)) (s : List Char) :
    Option (List (List Char × List Char)) :=
  reMatchFuel (tokens.length + 1) tokens s

/-- The `re.split(r'\{(.*?)\}', FILTERSTRING_TEMPLATE)` decomposition of
`filters.FILTERSTRING_TEMPLATE`: keyword names in the odd positions, the
literal following each keyword alongside it. -/
def FILTERSTRING_TEMPLATE_tokens : List (List Char × List Char) :=
  [ (pystr "spatial_predicate", pystr "("),
    (pystr "geom_name", pystr ", ST_TRANSFORM(ST_GeomFromText('"),
    (pystr "wkt", pystr "', "),
    (pystr "srid", pystr "), "),
    (pystr "layer_srid", pystr "))") ]

/-- `helpers.matchFormatString(FILTERSTRING_TEMPLATE, s)` (the only
instantiation the code performs): group dict on success, the raised
`Exception("Format string did not match")` as `.error .formatMismatch`. -/
def matchFormatString (s : List Char) : Except PyErr (List (List Char × List Char)) :=
  match reMatchGroups FILTERSTRING_TEMPLATE_tokens s with
  | some m => .ok m
  | none => .error .formatMismatch

/-! ## filters.py -/

/-- `FilterDefinition.filterString(layer)`: render the backend fragment.
The `FILTERSTRING_TEMPLATE` / `FILTERSTRING_TEMPLATE_SENSORTHINGS`
`.format(...)` calls are written out as the corresponding concatenations;
`str(srid)` is `pyStrNat`.  `Predicate(self.predicate).name` raises
`ValueError` on an ordinal outside 1..3, hence the `Except`. -/
def FilterDefinition.filterString (adv : GeomAdapter) (d : FilterDefinition)
    (layer : Layer) : Except PyErr (List Char) :=
  match predicateEnumName d.predicate with
  | .error e => .error e
  | .ok pname =>
    let spatial_predicate := pystr "ST_" ++ pname
    let wkt := if d.bbox then adv.bboxWkt d.wkt else d.wkt
    let srid := d.crs
    let layer_srid := layer.crsSrid
    let geom_name := getLayerGeomName layer
    if layer.storageType = SENSORTHINGS_STORAGE_TYPE then
      let single_geometry := adv.convertToSingleTypeWkt wkt
      let reprojected_geometry := reproject_geometry adv single_geometry srid layer_srid
      let sp := pyLower spatial_predicate
      .ok (sp ++ pystr "(" ++ geom_name ++ pystr ", geography'" ++
          reprojected_geometry ++ pystr "')")
    else
      let sp := if d.predicate = 3 then pystr "NOT ST_INTERSECTS" else spatial_predicate
      .ok (sp ++ pystr "(" ++ geom_name ++ pystr ", ST_TRANSFORM(ST_GeomFromText('" ++
          wkt ++ pystr "', " ++ pyStrNat srid ++ pystr "), " ++
          pyStrNat layer_srid ++ pystr "))")

/-- `helpers.addFilterToLayer`: returns the layer with the new subset
string.  When `filterString` raises, the python layer keeps the state left
by the preceding in-place removal; no claim exercises that corner, so the
error is simply propagated. -/
def addFilterToLayer (adv : GeomAdapter) (layer : Layer)
    (filterDef : FilterDefinition) : Except PyErr Layer :=
  let currentFilter0 := layer.subsetString
  let SS := getFilterStartStopString layer
  let layer1 := if containsSub currentFilter0 SS.1 then removeFilterFromLayer layer else layer
  let currentFilter := layer1.subsetString
  match FilterDefinition.filterString adv filterDef layer1 with
  | .error e => .error e
  | .ok frag =>
    let connect := if currentFilter ≠ [] then pystr " AND " else []
    if layer.storageType = SENSORTHINGS_STORAGE_TYPE then
      let connect := pyLower connect
      .ok { layer1 with subsetString := currentFilter ++ connect ++ SS.1 ++ frag ++ SS.2 }
    else
      .ok { layer1 with subsetString := currentFilter ++ SS.1 ++ connect ++ frag ++ SS.2 }

/-- `filters.updateFilterNameFromStorage`: single pass over the loaded
catalog (the result of `loadAllFilterDefinitions()`, passed explicitly
here since QSettings is an external store); per entry, exact
(CRS, WKT) match first, then bounding-box WKT match, returning the stored
entry with the live predicate carried over (and `bbox := true` in the
bounding-box case). -/
def updateFilterNameFromStorage (adv : GeomAdapter)
    (catalog : List FilterDefinition) (filterDef : FilterDefinition) :
    FilterDefinition :=
  match catalog with
  | [] => filterDef
  | storageFilter :: rest =>
    if filterDef.crs = storageFilter.crs ∧ filterDef.wkt = storageFilter.wkt then
      { storageFilter with predicate := filterDef.predicate }
    else if filterDef.crs = storageFilter.crs ∧
        filterDef.wkt = adv.bboxWkt storageFilter.wkt then
      { storageFilter with predicate := filterDef.predicate, bbox := true }
    else
      updateFilterNameFromStorage adv rest filterDef

/-- `FilterDefinition.fromFilterString(layer)`: slice the fragment out of
the subset string by marker search, drop `' AND '`, reverse-match the
template and rebuild a definition, then reconcile against the catalog.
Note that *both* storage-type branches of the python code match against
the generic `FILTERSTRING_TEMPLATE` (filters.py line 126 and 130); the
SensorThings branch then strips a lower-case `'st_'` prefix.
`tr('Unknown filter')` is the identity in this model. -/
def FilterDefinition.fromFilterString (adv : GeomAdapter)
    (catalog : List FilterDefinition) (layer : Layer) :
    Except PyErr FilterDefinition :=
  let subsetString := layer.subsetString
  let SS := getFilterStartStopString layer
  let start_index : Int := pyFind subsetString SS.1 + SS.1.length
  let stop_index : Int := pyFind subsetString SS.2
  let filterString0 := pySlice subsetString start_index stop_index
  let filterString := pyReplace filterString0 (pystr " AND ") []
  match matchFormatString filterString with
  | .error e => .error e
  | .ok params =>
    match lookupKV params (pystr "spatial_predicate") with
    | none => .error .keyError
    | some spRaw =>
      let predicateName :=
        if layer.storageType = SENSORTHINGS_STORAGE_TYPE then
          spRaw.drop (pystr "st_").length
        else if (pystr "NOT ST_INTERSECTS").isPrefixOf filterString then
          pystr "DISJOINT"
        else
          spRaw.drop (pystr "ST_").length
      match predicateFromName predicateName with
      | .error e => .error e
      | .ok predicate =>
        match lookupKV params (pystr "wkt") with
        | none => .error .keyError
        | some wkt =>
          match lookupKV params (pystr "srid") with
          | none => .error .keyError
          | some sridStr =>
            match pyIntOfStr sridStr with
            | none => .error .valueError
            | some srid =>
              let filterDefinition : FilterDefinition :=
                { name := pystr "Unknown filter"
                  wkt := wkt
                  crs := srid
                  predicate := predicate
                  bbox := false }
              .ok (updateFilterNameFromStorage adv catalog filterDefinition)

/-- `FilterDefinition.storageDict`: the 5-field storage record.  The CRS is
stored as its authority id and the predicate as `str(self.predicate)`. -/
def FilterDefinition.storageDict (d : FilterDefinition) : StorageDict :=
  [ (pystr "name", .s d.name),
    (pystr "wkt", .s d.wkt),
    (pystr "srid", .s (authid d.crs)),
    (pystr "predicate", .s (pyStrNat d.predicate)),
    (pystr "bbox", .b d.bbox) ]

/-- `FilterDefinition.fromStorageDict`: the `assert len(value) == 5` is the
only schema check (`.error .assertionError`); the five values are then
read by key (a missing key raises `KeyError`) and the predicate goes
through `int()` in `__post_init__` (`.error .valueError` on a non-numeric
string).  The python code performs no per-field type check: a non-string
`name`/`wkt` or non-bool `bbox` would simply be stored in the dataclass;
such records are outside this typed embedding and are folded into the
`keyError` catch-all, on which no theorem depends. -/
def FilterDefinition.fromStorageDict (value : StorageDict) :
    Except PyErr FilterDefinition :=
  if value.length = 5 then
    match lookupKV value (pystr "name"), lookupKV value (pystr "wkt"),
        lookupKV value (pystr "predicate"), lookupKV value (pystr "bbox"),
        lookupKV value (pystr "srid") with
    | some (.s name), some (.s wkt), some predicateV, some (.b bbox), some sridV =>
      match pyIntOfSVal predicateV with
      | some predicate =>
        .ok { name := name, wkt := wkt, crs := crsFromSVal sridV,
              predicate := predicate, bbox := bbox }
      | none => .error .valueError
    | _, _, _, _, _ => .error .keyError
  else .error .assertionError

/-- `FilterDefinition.isValid`:
`all([geometry.isGeosValid(), crs.isValid(), predicate])`. -/
def FilterDefinition.isValid (adv : GeomAdapter) (d : FilterDefinition) : Bool :=
  adv.isGeosValid d.wkt && decide (d.crs ≠ 0) && decide (d.predicate ≠ 0)

/-- Truthiness of `readSettingsValue(name)`: `None` and the empty dict are
falsy, a non-empty dict is truthy. -/
def truthyOpt : Option StorageDict → Bool
  | none => false
  | some v => decide (v ≠ [])

/-- `FilterDefinition.isSaved`:
`self.storageDict == readSettingsValue(self.name)` (comparison with the
`None` default is `False`). -/
def FilterDefinition.isSaved (settings : List (List Char × StorageDict))
    (d : FilterDefinition) : Bool :=
  match lookupKV settings d.name with
  | some v => decide (v = FilterDefinition.storageDict d)
  | none => false

/-- Outcome reported by `saveFilterDefinition` (message-bar pushes and the
silent returns, made observable). -/
inductive SaveOutcome where
  | invalidDefinition
  | missingName
  | alreadySaved
  | overwriteDeclined
  | saved
  deriving DecidableEq, Repr

/-- `filters.saveFilterDefinition`: the QSettings group is the explicit
`settings` association list and the `askOverwrite` dialog is the injected
boolean capability `ask`.  The `if not filterDef:` guard is vacuous for a
dataclass instance and has no counterpart here. -/
def saveFilterDefinition (adv : GeomAdapter) (ask : Bool)
    (settings : List (List Char × StorageDict)) (filterDef : FilterDefinition) :
    List (List Char × StorageDict) × SaveOutcome :=
  if FilterDefinition.isValid adv filterDef = false then
    (settings, .invalidDefinition)
  else if filterDef.name = [] then
    (settings, .missingName)
  else if FilterDefinition.isSaved settings filterDef then
    (settings, .alreadySaved)
  else if truthyOpt (lookupKV settings filterDef.name) && !ask then
    (settings, .overwriteDeclined)
  else
    (setKV settings filterDef.name (FilterDefinition.storageDict filterDef), .saved)

/-! ## Concrete instantiations used by witnesses and counterexamples -/

set_option maxRecDepth 100000

instance instDecEqExcept {ε α : Type} [DecidableEq ε] [DecidableEq α] :
    DecidableEq (Except ε α) := fun a b =>
  match a, b with
  | .ok x, .ok y => if h : x = y then isTrue (by rw [h]) else isFalse (by simp [h])
  | .error x, .error y => if h : x = y then isTrue (by rw [h]) else isFalse (by simp [h])
  | .ok _, .error _ => isFalse (by simp)
  | .error _, .ok _ => isFalse (by simp)

/-- A concrete geometry adapter: a WKT is GEOS-valid iff non-empty, boxing
and single-part conversion keep the WKT, transforms are the identity.  Any
instantiation of the external capability is a legitimate test environment;
this one keeps the concrete computations small. -/
def advId : GeomAdapter :=
  { isGeosValid := fun w => w ≠ []
    bboxWkt := id
    convertToSingleTypeWkt := id
    transform := fun _ _ g => g }

/-- Adapter whose bounding-box operation sends the polygon `PB` to the
box WKT `W` (used to build a bbox-matching catalog entry). -/
def advB : GeomAdapter :=
  { isGeosValid := fun w => w ≠ []
    bboxWkt := fun w => if w = pystr "PB" then pystr "W" else w
    convertToSingleTypeWkt := id
    transform := fun _ _ g => g }

/-- An unfiltered SensorThings layer. -/
def stLayerEx : Layer :=
  { subsetString := [], storageType := SENSORTHINGS_STORAGE_TYPE,
    crsSrid := 4326, geomName := pystr "g" }

/-- A valid INTERSECTS definition on a point geometry. -/
def dEx : FilterDefinition :=
  { name := [], wkt := pystr "POINT(1 2)", crs := 4326, predicate := 1, bbox := false }

/-- A generic (GPKG) layer carrying the foreign filter text `panda`. -/
def genLayerPanda : Layer :=
  { subsetString := pystr "panda", storageType := pystr "GPKG",
    crsSrid := 4326, geomName := pystr "g" }

/-- A valid named INTERSECTS definition. -/
def dGen : FilterDefinition :=
  { name := pystr "n", wkt := pystr "POINT(1 2)", crs := 4326, predicate := 1, bbox := false }

/-- A generic layer whose subset string contains the start marker but no
stop marker. -/
def layerC6bad : Layer :=
  { subsetString := pystr "abc/* SpatialFilter Plugin Start */tail",
    storageType := pystr "GPKG", crsSrid := 4326, geomName := pystr "g" }

/-- A generic layer whose subset string contains no marker at all. -/
def layerC6clean : Layer :=
  { subsetString := pystr "abc", storageType := pystr "GPKG",
    crsSrid := 4326, geomName := pystr "g" }

/-- The unfiltered generic layer of the spec scenario (target EPSG:3857,
geometry field `geom`). -/
def layerC9 : Layer :=
  { subsetString := [], storageType := pystr "GPKG",
    crsSrid := 3857, geomName := pystr "geom" }

/-- The FilterDefinition of the spec scenario. -/
def dC9 : FilterDefinition :=
  { name := [], wkt := pystr "POLYGON((0 0,0 1,1 1,1 0,0 0))",
    crs := 4326, predicate := 1, bbox := false }

/-- A DISJOINT definition. -/
def dDisjSt : FilterDefinition :=
  { name := pystr "n", wkt := pystr "POINT(1 2)", crs := 4326, predicate := 3, bbox := false }

/-- A reverse-parsed (name-less) WITHIN definition whose WKT is `W`. -/
def dParsed : FilterDefinition :=
  { name := [], wkt := pystr "W", crs := 4326, predicate := 2, bbox := false }

/-- Catalog entry `B`: its stored WKT `PB` is distinct from `W` but its
bounding-box WKT (under `advB`) equals `W`. -/
def fB : FilterDefinition :=
  { name := pystr "B", wkt := pystr "PB", crs := 4326, predicate := 1, bbox := false }

/-- Catalog entry `A`: its (CRS, WKT) exactly equal the parsed
definition's. -/
def fA : FilterDefinition :=
  { name := pystr "A", wkt := pystr "W", crs := 4326, predicate := 1, bbox := false }

/-- An invalid definition (empty WKT is not GEOS-valid under `advId`). -/
def dInv : FilterDefinition :=
  { name := pystr "a", wkt := [], crs := 4326, predicate := 1, bbox := false }

/-- A valid definition with an empty name. -/
def dNoName : FilterDefinition :=
  { name := [], wkt := pystr "P", crs := 4326, predicate := 1, bbox := false }

/-- A valid named definition. -/
def dF : FilterDefinition :=
  { name := pystr "f", wkt := pystr "P", crs := 4326, predicate := 1, bbox := false }

/-- A distinct definition stored under the same name as `dF`. -/
def dG : FilterDefinition :=
  { name := pystr "f", wkt := pystr "Q", crs := 4326, predicate := 1, bbox := false }

/-- Settings already holding exactly `dF`'s record under its name. -/
def st1 : List (List Char × StorageDict) :=
  [(pystr "f", FilterDefinition.storageDict dF)]

/-- Settings holding a distinct record (`dG`'s) under `dF`'s name. -/
def st2 : List (List Char × StorageDict) :=
  [(pystr "f", FilterDefinition.storageDict dG)]

/-- A definition exercising all five storage fields. -/
def dW : FilterDefinition :=
  { name := pystr "w", wkt := pystr "P", crs := 4326, predicate := 2, bbox := true }

/-- A 5-field record whose `predicate` value is a non-numeric string. -/
def recBad : StorageDict :=
  [ (pystr "name", .s (pystr "x")),
    (pystr "wkt", .s (pystr "P")),
    (pystr "srid", .s (pystr "EPSG:4326")),
    (pystr "predicate", .s (pystr "xyz")),
    (pystr "bbox", .b false) ]

/-! ## Helper lemmas: decimal and authority-id round trips -/

theorem parseDigitsAux_append (l1 l2 : List Char) :
    ∀ acc, parseDigitsAux (l1 ++ l2) acc = (parseDigitsAux l1 acc).bind (parseDigitsAux l2) := by
  induction l1 with
  | nil => intro acc; simp [parseDigitsAux]
  | cons c t ih =>
    intro acc
    simp only [List.cons_append, parseDigitsAux]
    cases digitVal c with
    | none => simp
    | some d => simp [ih]

theorem digitVal_digitChar : ∀ d, d < 10 → digitVal (digitChar d) = some d := by decide

theorem digitChar_toNat : ∀ d, d < 10 → (digitChar d).toNat = 48 + d := by decide

theorem parse_natDigitsRevFuel :
    ∀ fuel n, n < fuel → ∀ acc,
      parseDigitsAux ((natDigitsRevFuel fuel n).reverse) acc =
        some (acc * 10 ^ (natDigitsRevFuel fuel n).length + n) := by
  intro fuel
  induction fuel with
  | zero => intro n h; omega
  | succ f ih =>
    intro n h acc
    by_cases h10 : n < 10
    · simp only [natDigitsRevFuel, if_pos h10, List.reverse_singleton, parseDigitsAux,
        digitVal_digitChar n h10, List.length_singleton]
      congr 1
      ring
    · have hn0 : 0 < n := by omega
      have hdiv : n / 10 < n := Nat.div_lt_self hn0 (by omega)
      have hd : n / 10 < f := Nat.lt_of_lt_of_le hdiv (Nat.lt_succ_iff.mp h)
      simp only [natDigitsRevFuel, if_neg h10, List.reverse_cons, parseDigitsAux_append,
        ih (n / 10) hd acc, Option.some_bind, List.length_cons]
      simp only [parseDigitsAux, digitVal_digitChar (n % 10) (Nat.mod_lt n (by omega))]
      have hmod : 10 * (n / 10) + n % 10 = n := Nat.div_add_mod n 10
      congr 1
      calc 10 * (acc * 10 ^ (natDigitsRevFuel f (n / 10)).length + n / 10) + n % 10
          = acc * (10 ^ (natDigitsRevFuel f (n / 10)).length * 10) +
            (10 * (n / 10) + n % 10) := by ring
        _ = acc * 10 ^ ((natDigitsRevFuel f (n / 10)).length + 1) + n := by
            rw [hmod, pow_succ]

theorem natDigitsRevFuel_mem_digit :
    ∀ fuel n c, c ∈ natDigitsRevFuel fuel n → 48 ≤ c.toNat ∧ c.toNat ≤ 57 := by
  intro fuel
  induction fuel with
  | zero => intro n c hc; simp [natDigitsRevFuel] at hc
  | succ f ih =>
    intro n c hc
    by_cases h10 : n < 10
    · simp only [natDigitsRevFuel, if_pos h10, List.mem_singleton] at hc
      subst hc
      rw [digitChar_toNat n h10]
      omega
    · simp only [natDigitsRevFuel, if_neg h10, List.mem_cons] at hc
      rcases hc with hc | hc
      · subst hc
        rw [digitChar_toNat (n % 10) (Nat.mod_lt n (by omega))]
        omega
      · exact ih (n / 10) c hc

theorem pyStrNat_ne_nil (n : Nat) : pyStrNat n ≠ [] := by
  unfold pyStrNat natDigitsRevFuel
  split <;> simp

theorem pyStrNat_mem_digit (n : Nat) (c : Char) (hc : c ∈ pyStrNat n) :
    48 ≤ c.toNat ∧ c.toNat ≤ 57 := by
  rw [pyStrNat, List.mem_reverse] at hc
  exact natDigitsRevFuel_mem_digit (n + 1) n c hc

theorem dropWhile_space_digits (l : List Char)
    (h : ∀ c ∈ l, 48 ≤ c.toNat ∧ c.toNat ≤ 57) :
    l.dropWhile (fun c => decide (c = ' ')) = l := by
  cases l with
  | nil => rfl
  | cons c t =>
    have hc := h c (by simp)
    have : (c = ' ') = False := by
      simp only [eq_iff_iff, iff_false]
      intro he
      subst he
      simp at hc
    simp [List.dropWhile, this]

theorem pyStripSpace_pyStrNat (n : Nat) : pyStripSpace (pyStrNat n) = pyStrNat n := by
  unfold pyStripSpace
  rw [dropWhile_space_digits _ (pyStrNat_mem_digit n)]
  rw [dropWhile_space_digits _ (by intro c hc; exact pyStrNat_mem_digit n c (List.mem_reverse.mp hc))]
  exact List.reverse_reverse _

theorem pyInt_pyStrNat (n : Nat) : pyIntOfStr (pyStrNat n) = some n := by
  unfold pyIntOfStr
  simp only [pyStripSpace_pyStrNat, if_neg (pyStrNat_ne_nil n)]
  rw [pyStrNat, parse_natDigitsRevFuel (n + 1) n (by omega) 0]
  simp

theorem crsFromAuthid_authid (c : Nat) : crsFromAuthid (authid c) = c := by
  by_cases h0 : c = 0
  · subst h0
    rfl
  · unfold authid crsFromAuthid
    rw [if_neg h0]
    have hpre : (pystr "EPSG:").isPrefixOf (pystr "EPSG:" ++ pyStrNat c) = true := by
      rw [List.isPrefixOf_iff_prefix]
      exact List.prefix_append _ _
    rw [if_pos hpre]
    have hdrop : (pystr "EPSG:" ++ pyStrNat c).drop 5 = pyStrNat c := by
      have h5 : (5 : Nat) = (pystr "EPSG:").length := rfl
      rw [h5, List.drop_left]
    rw [hdrop, pyInt_pyStrNat c]

theorem fromStorageDict_storageDict (d : FilterDefinition) :
    FilterDefinition.fromStorageDict (FilterDefinition.storageDict d) = .ok d := by
  have h1 : pyIntOfStr (pyStrNat d.predicate) = some d.predicate := pyInt_pyStrNat d.predicate
  have h2 : crsFromAuthid (authid d.crs) = d.crs := crsFromAuthid_authid d.crs
  calc FilterDefinition.fromStorageDict (FilterDefinition.storageDict d)
      = (match pyIntOfStr (pyStrNat d.predicate) with
        | some predicate =>
          Except.ok { name := d.name, wkt := d.wkt, crs := crsFromAuthid (authid d.crs),
                      predicate := predicate, bbox := d.bbox }
        | none => Except.error PyErr.valueError) := rfl
    _ = Except.ok { name := d.name, wkt := d.wkt, crs := crsFromAuthid (authid d.crs),
                    predicate := d.predicate, bbox := d.bbox } := by rw [h1]
    _ = Except.ok d := by rw [h2]

/-! ## Claim theorems -/

/-- Claim C1 (code_bug evidence).  The round-trip fails for the
SensorThings dialect: rendering a valid INTERSECTS definition gives the
expected lower-cased fragment, but reverse-parsing the injected filter
string raises the `Format string did not match` exception, because
`fromFilterString` matches the fragment against the generic
`FILTERSTRING_TEMPLATE` instead of `FILTERSTRING_TEMPLATE_SENSORTHINGS`;
no SensorThings fragment can ever contain the template's
`ST_TRANSFORM(ST_GeomFromText('` literal, so no predicate/geometry/CRS is
recovered. -/
theorem c1_sensorthings_parse_fails :
    FilterDefinition.filterString advId dEx stLayerEx =
      .ok (pystr "st_intersects(g, geography'POINT(1 2)')") ∧
    (addFilterToLayer advId stLayerEx dEx).bind
      (FilterDefinition.fromFilterString advId []) = .error .formatMismatch := by
  decide

/-- Claim C2 (code_bug evidence).  Foreign-text preservation fails:
injecting into the foreign filter `panda` on a generic layer and removing
again leaves `p`, not `panda` — `removeFilterFromLayer` finishes with
`newFilter.rstrip(' and ')`, and python's `str.rstrip` strips the trailing
character *set* `{' ','a','n','d'}` from the user's own text. -/
theorem c2_remove_strips_foreign_text :
    Except.map removeFilterFromLayer (addFilterToLayer advId genLayerPanda dGen) =
      .ok { genLayerPanda with subsetString := pystr "p" } ∧
    pystr "p" ≠ pystr "panda" := by
  decide

/-- Claim C3 (code_bug evidence).  Injection is not idempotent: on the
starting string `panda`, the second injection first removes the previous
fragment with the `rstrip(' and ')` slip, so the re-injected string keeps
only the prefix `p` of the foreign text and differs from the once-injected
string. -/
theorem c3_inject_twice_differs :
    (addFilterToLayer advId genLayerPanda dGen).bind
        (fun l => addFilterToLayer advId l dGen) ≠
      addFilterToLayer advId genLayerPanda dGen := by
  decide

/-- Claim C4 (counterexample).  The SensorThings dialect does *not* apply
the negated-INTERSECTS rewrite: rendering a DISJOINT definition yields the
plain lower-cased `st_disjoint(...)` fragment, which does not begin with
the negated form the claim requires. -/
theorem c4_sensorthings_keeps_disjoint :
    FilterDefinition.filterString advId dDisjSt stLayerEx =
      .ok (pystr "st_disjoint(g, geography'POINT(1 2)')") ∧
    (pystr "not st_intersects").isPrefixOf
      (pystr "st_disjoint(g, geography'POINT(1 2)')") = false := by
  decide

/-- Claim C4 (amended).  For every DISJOINT definition, the generic
dialect rewrites the predicate to `NOT ST_INTERSECTS`, while the
SensorThings dialect performs no negation and renders the lower-cased
operator `st_disjoint` (`Predicate(3).name` lower-cased; the rewrite at
filters.py line 104 sits after the SensorThings branch has returned). -/
theorem c4_disjoint_rewrite_amended (adv : GeomAdapter) (d : FilterDefinition)
    (gl sl : Layer) (h : d.predicate = 3)
    (hg : ¬ gl.storageType = SENSORTHINGS_STORAGE_TYPE)
    (hs : sl.storageType = SENSORTHINGS_STORAGE_TYPE) :
    FilterDefinition.filterString adv d gl =
      .ok (pystr "NOT ST_INTERSECTS" ++ pystr "(" ++ getLayerGeomName gl ++
        pystr ", ST_TRANSFORM(ST_GeomFromText('" ++
        (if d.bbox then adv.bboxWkt d.wkt else d.wkt) ++ pystr "', " ++
        pyStrNat d.crs ++ pystr "), " ++ pyStrNat gl.crsSrid ++ pystr "))") ∧
    FilterDefinition.filterString adv d sl =
      .ok (pystr "st_disjoint" ++ pystr "(" ++ getLayerGeomName sl ++
        pystr ", geography'" ++
        reproject_geometry adv
          (adv.convertToSingleTypeWkt (if d.bbox then adv.bboxWkt d.wkt else d.wkt))
          d.crs sl.crsSrid ++ pystr "')") := by
  constructor
  · simp only [FilterDefinition.filterString, h, predicateEnumName]
    rw [if_neg hg]
    simp
  · simp only [FilterDefinition.filterString, h, predicateEnumName]
    rw [if_pos hs]
    rfl

/-- Witness for the amended claim C4 at a concrete DISJOINT definition,
generic layer and SensorThings layer. -/
theorem c4_disjoint_rewrite_amended_witness :
    FilterDefinition.filterString advId dDisjSt genLayerPanda =
      .ok (pystr "NOT ST_INTERSECTS(g, ST_TRANSFORM(ST_GeomFromText('POINT(1 2)', 4326), 4326))") ∧
    FilterDefinition.filterString advId dDisjSt stLayerEx =
      .ok (pystr "st_disjoint(g, geography'POINT(1 2)')") := by
  have h := c4_disjoint_rewrite_amended advId dDisjSt genLayerPanda stLayerEx
    (by decide) (by decide) (by decide)
  exact ⟨h.1.trans (by decide), h.2.trans (by decide)⟩

/-- Claim C5 (counterexample).  Exact match does not win regardless of
storage order: with the bbox-matching entry `B` stored before the
exact-matching entry `A`, reconciliation returns `B` (with `bbox := true`
and the live predicate), not the exact-match entry `A`. -/
theorem c5_bbox_entry_shadows_exact :
    updateFilterNameFromStorage advB [fB, fA] dParsed =
      { fB with predicate := 2, bbox := true } ∧
    ({ fB with predicate := 2, bbox := true } : FilterDefinition).name ≠ fA.name := by
  decide

/-- Claim C5 (amended).  Reconciliation is a single pass in storage order,
preferring the exact (CRS, WKT) match over the bounding-box match within
each entry: the exact-matching entry `A` is returned (with the parsed
definition's predicate carried over and `A`'s stored bbox flag kept) when
no earlier entry matches either exactly or by bounding box; an earlier
bbox-matching entry wins over a later exact match. -/
theorem c5_first_match_wins_amended (adv : GeomAdapter) (d A : FilterDefinition)
    (pre post : List FilterDefinition)
    (hpre : ∀ e ∈ pre, ¬(d.crs = e.crs ∧ d.wkt = e.wkt) ∧
      ¬(d.crs = e.crs ∧ d.wkt = adv.bboxWkt e.wkt))
    (hA : d.crs = A.crs ∧ d.wkt = A.wkt) :
    updateFilterNameFromStorage adv (pre ++ A :: post) d =
      { A with predicate := d.predicate } := by
  induction pre with
  | nil =>
    simp only [List.nil_append, updateFilterNameFromStorage]
    rw [if_pos hA]
  | cons e rest ih =>
    have he := hpre e (by simp)
    simp only [List.cons_append, updateFilterNameFromStorage]
    rw [if_neg he.1, if_neg he.2]
    exact ih (fun x hx => hpre x (by simp [hx]))

/-- Witness for the amended claim C5: a singleton catalog holding the
exact-matching entry. -/
theorem c5_first_match_wins_amended_witness :
    updateFilterNameFromStorage advB [fA] dParsed =
      { fA with predicate := dParsed.predicate } :=
  c5_first_match_wins_amended advB dParsed fA [] [] (by simp) (by decide)

/-- Claim C6 (code_bug evidence).  On a filter string containing the start
marker but no stop marker, extraction does not fail: `find` returns `-1`
for the missing stop marker, `stop_index` becomes `len(stop) - 1 = 30`,
and the layer's filter is silently replaced by the corrupted string
`abcrt */tail`; a string without any start marker is left untouched. -/
theorem c6_missing_stop_marker_corrupts :
    removeFilterFromLayer layerC6bad =
      { layerC6bad with subsetString := pystr "abcrt */tail" } ∧
    removeFilterFromLayer layerC6clean = layerC6clean := by
  decide

/-- Claim C7.  `saveFilterDefinition` reports and leaves the settings
unchanged on an invalid definition and on an empty name, is a no-op when
the identical storage record is already stored under the name, and leaves
the settings unchanged when a distinct non-empty record exists under the
name and the injected overwrite confirmation answers no. -/
theorem c7_save_guards (adv : GeomAdapter) (ask : Bool)
    (st : List (List Char × StorageDict)) (d : FilterDefinition) :
    (FilterDefinition.isValid adv d = false →
      saveFilterDefinition adv ask st d = (st, .invalidDefinition)) ∧
    (FilterDefinition.isValid adv d = true → d.name = [] →
      saveFilterDefinition adv ask st d = (st, .missingName)) ∧
    (lookupKV st d.name = some (FilterDefinition.storageDict d) →
      (saveFilterDefinition adv ask st d).1 = st) ∧
    (∀ v, lookupKV st d.name = some v → v ≠ [] →
      v ≠ FilterDefinition.storageDict d → ask = false →
      (saveFilterDefinition adv ask st d).1 = st) := by
  refine ⟨?_, ?_, ?_, ?_⟩
  · intro h
    simp [saveFilterDefinition, h]
  · intro hv hn
    simp [saveFilterDefinition, hv, hn]
  · intro h
    by_cases hv : FilterDefinition.isValid adv d = false
    · simp [saveFilterDefinition, hv]
    · by_cases hn : d.name = []
      · simp [saveFilterDefinition, hv, hn]
      · have hsaved : FilterDefinition.isSaved st d = true := by
          simp [FilterDefinition.isSaved, h]
        simp [saveFilterDefinition, hv, hn, hsaved]
  · intro v hlook hne hdist hask
    by_cases hv : FilterDefinition.isValid adv d = false
    · simp [saveFilterDefinition, hv]
    · by_cases hn : d.name = []
      · simp [saveFilterDefinition, hv, hn]
      · have hsaved : FilterDefinition.isSaved st d = false := by
          simp [FilterDefinition.isSaved, hlook]
          exact hdist
        have htruthy : truthyOpt (lookupKV st d.name) = true := by
          simp [truthyOpt, hlook]
          exact hne
        simp [saveFilterDefinition, hv, hn, hsaved, htruthy, hask]

/-- Witness for claim C7: each guard exercised at a concrete input. -/
theorem c7_save_guards_witness :
    saveFilterDefinition advId true [] dInv = ([], .invalidDefinition) ∧
    saveFilterDefinition advId true [] dNoName = ([], .missingName) ∧
    (saveFilterDefinition advId true st1 dF).1 = st1 ∧
    (saveFilterDefinition advId false st2 dF).1 = st2 :=
  ⟨(c7_save_guards advId true [] dInv).1 (by decide),
   (c7_save_guards advId true [] dNoName).2.1 (by decide) (by decide),
   (c7_save_guards advId true st1 dF).2.2.1 (by decide),
   (c7_save_guards advId false st2 dF).2.2.2 (FilterDefinition.storageDict dG)
     (by decide) (by decide) (by decide) rfl⟩

/-- Claim C8 (counterexample).  A 5-field record whose `predicate` value
is the non-numeric string `xyz` does not fail with the malformed-record
assertion: the `assert len(value) == 5` passes and the failure is the
`ValueError` raised by `int()` instead. -/
theorem c8_type_mismatch_not_malformed :
    FilterDefinition.fromStorageDict recBad = .error .valueError ∧
    PyErr.valueError ≠ PyErr.assertionError := by
  decide

/-- Claim C8 (amended).  Storage serialization is exact and lossless:
`fromStorageDict (storageDict d) = d` in all five fields for every
definition; and the malformed-record assertion fires exactly on a wrong
field *count* — a record with the wrong number of fields fails with the
assertion, while type mismatches inside a 5-field record surface as other
exceptions. -/
theorem c8_storage_roundtrip_amended :
    (∀ d : FilterDefinition,
      FilterDefinition.fromStorageDict (FilterDefinition.storageDict d) = .ok d) ∧
    (∀ rec : StorageDict, rec.length ≠ 5 →
      FilterDefinition.fromStorageDict rec = .error .assertionError) := by
  constructor
  · exact fromStorageDict_storageDict
  · intro rec h
    unfold FilterDefinition.fromStorageDict
    rw [if_neg h]

/-- Witness for the amended claim C8: the round trip at a concrete
definition and the assertion at the empty record. -/
theorem c8_storage_roundtrip_amended_witness :
    FilterDefinition.fromStorageDict (FilterDefinition.storageDict dW) = .ok dW ∧
    FilterDefinition.fromStorageDict [] = .error .assertionError :=
  ⟨c8_storage_roundtrip_amended.1 dW, c8_storage_roundtrip_amended.2 [] (by decide)⟩

/-- Claim C9.  The spec scenario: generic dialect, the polygon in
EPSG:4326, predicate INTERSECTS, target EPSG:3857, geometry field `geom`,
empty existing filter — the rendered fragment is exactly the claimed
string and the injected subset string is exactly start marker + fragment +
stop marker with no leading `AND`. -/
theorem c9_generic_scenario :
    FilterDefinition.filterString advId dC9 layerC9 =
      .ok (pystr "ST_INTERSECTS(geom, ST_TRANSFORM(ST_GeomFromText('POLYGON((0 0,0 1,1 1,1 0,0 0))', 4326), 3857))") ∧
    addFilterToLayer advId layerC9 dC9 =
      .ok { layerC9 with
            subsetString := pystr "/* SpatialFilter Plugin Start */ST_INTERSECTS(geom, ST_TRANSFORM(ST_GeomFromText('POLYGON((0 0,0 1,1 1,1 0,0 0))', 4326), 3857))/* SpatialFilter Plugin Stop */" } := by
  decide

/-- Claim C10.  `reproject_geometry` is the identity whenever source and
target CRS codes are equal: the equality guard returns the geometry
before any transform is constructed. -/
theorem c10_reproject_identity (adv : GeomAdapter) (g : List Char) (c : Nat) :
    reproject_geometry adv g c c = g := by
  simp [reproject_geometry]
